import Mathlib

/-!
Verification of the CKAN adapter (`odp_api_adapters/ckan_adapter.py`).

The adapter is embedded shallowly: the remote CKAN backend is a record of
pure functions (`Backend`), one per CKAN action the adapter invokes, each
returning a raw outcome (`RawResult`).  `call_ckan` classifies raw outcomes
into `HTTPException`s exactly as `CKANAdapter._call_ckan` does.  Every adapter
operation is a pure function of the backend which returns its Python result
(`Except HTTPException α`, since the Python methods raise `HTTPException`)
together with the ordered list of backend calls it issued (`CallEvent`s), so
that properties about which backend actions run, and in which order, can be
stated.  Python strings are modelled as lists of characters; opaque JSON
payloads are modelled as the same type, with serialization of an opaque
payload treated as the identity.
-/

/-- Python strings, modelled as character lists. -/
abbrev Str := List Char

/-- `s.startswith t` on character lists. -/
def starts_with_l : Str → Str → Bool
  | _, [] => true
  | [], _ :: _ => false
  | a :: s, b :: t => a = b && starts_with_l s t

/-- `s.endswith t` on character lists (Python `str.endswith`). -/
def ends_with_l (s t : Str) : Bool :=
  starts_with_l s.reverse t.reverse

/-- `t in s` on character lists (Python substring containment). -/
def contains_sub : Str → Str → Bool
  | [], needle => starts_with_l [] needle
  | a :: rest, needle => starts_with_l (a :: rest) needle || contains_sub rest needle

/-- A Python dict with string keys and opaque values, as an ordered
association list (insertion-ordered, unique keys when built by `set_key`). -/
abbrev Errors := List (Str × Str)

/-- Python `d[k] = v`: overwrite the entry for `k` in place, else append. -/
def set_key : Errors → Str → Str → Errors
  | [], k, v => [(k, v)]
  | kv :: d, k, v => if kv.1 = k then (k, v) :: d else kv :: set_key d k v

/-- Python `d.update(new)`: assign each of `new`'s entries into `d` in order. -/
def dict_update (d new : Errors) : Errors :=
  new.foldl (fun acc kv => set_key acc kv.1 kv.2) d

/-- Python `d[k]` / `d.get(k)`: first entry for `k`, if any. -/
def dict_lookup : Errors → Str → Option Str
  | [], _ => none
  | kv :: d, k => if kv.1 = k then some kv.2 else dict_lookup d k

/-- The value the LAST entry for `k` in `l` holds, if any (used to state
last-write-wins merging). -/
def last_value : Errors → Str → Option Str
  | [], _ => none
  | kv :: rest, k =>
      match last_value rest k with
      | some v => some v
      | none => if kv.1 = k then some kv.2 else none

/-- `Option.orElse`, specialised and strict in both arguments. -/
def opt_or (a b : Option Str) : Option Str :=
  match a with
  | some v => some v
  | none => b

/-- `fastapi.HTTPException(status_code, detail)`. -/
structure HTTPException where
  status_code : Nat
  detail : Str
deriving DecidableEq, Repr

/-- The raw outcome of one CKAN action call, before `_call_ckan` classifies
it: a successful response value, or one of the exception kinds caught by
`_call_ckan`'s handlers (`requests.RequestException`,
`ckanapi.ValidationError`, `ckanapi.NotAuthorized`, `ckanapi.NotFound`,
`ckanapi.CKANAPIError`). -/
inductive RawResult (α : Type) where
  | ok (v : α)
  | requestExc (msg : Str)
  | validationError (msg : Str)
  | notAuthorized (msg : Str)
  | notFound (msg : Str)
  | apiError (msg : Str)
deriving DecidableEq, Repr

/-- `CKANAdapter._call_ckan`: classify a raw CKAN call outcome into the
adapter's `HTTPException` taxonomy (the action's response value on success). -/
def call_ckan {α : Type} : RawResult α → Except HTTPException α
  | .ok v => .ok v
  | .requestExc m => .error ⟨503, "Error sending request to CKAN: ".toList ++ m⟩
  | .validationError m => .error ⟨400, "CKAN validation error: ".toList ++ m⟩
  | .notAuthorized m => .error ⟨403, "Not authorized to access CKAN resource: ".toList ++ m⟩
  | .notFound m => .error ⟨404, "CKAN resource not found: ".toList ++ m⟩
  | .apiError m => .error ⟨400, "CKAN error: ".toList ++ m⟩

/-- A CKAN metadata record dict, as returned by the `metadata_record_*`
actions and consumed by `_translate_from_ckan_record` (plus the `state`
field read by `get_metadata_record`). -/
structure CKANRecord where
  id : Str
  name : Str
  owner_org : Str
  metadata_collection_id : Str
  metadata_standard_id : Str
  metadata_json : Str
  doi : Option Str
  validated : Bool
  errors : Errors
  state : Str
  workflow_state_id : Str
deriving DecidableEq, Repr

/-- The dict built by `_translate_to_ckan_record`, sent to the
`metadata_record_create` / `metadata_record_update` actions. -/
structure CKANRecordInput where
  owner_org : Str
  metadata_collection_id : Str
  metadata_standard_id : Str
  metadata_json : Str
  doi : Option Str
  auto_assign_doi : Bool
deriving DecidableEq, Repr

/-- Domain model `MetadataRecord` (from `odp.api.models.metadata`), with the
fields `_translate_from_ckan_record` populates. -/
structure MetadataRecord where
  institution_key : Str
  collection_key : Str
  schema_key : Str
  metadata : Str
  id : Str
  pid : Option Str
  doi : Option Str
  validated : Bool
  errors : Errors
  state : Str
deriving DecidableEq, Repr

/-- Domain model `MetadataRecordIn`, with the fields the adapter reads. -/
structure MetadataRecordIn where
  collection_key : Str
  schema_key : Str
  metadata : Str
  doi : Option Str
  auto_assign_doi : Bool
  terms_conditions_accepted : Bool
  data_agreement_accepted : Bool
  data_agreement_url : Option Str
  capture_method : Str
deriving DecidableEq, Repr

/-- `MetadataValidationResult`. -/
structure MetadataValidationResult where
  success : Bool
  errors : Errors
deriving DecidableEq, Repr

/-- `MetadataWorkflowResult`. -/
structure MetadataWorkflowResult where
  success : Bool
  errors : Errors
deriving DecidableEq, Repr

/-- The value objects set as workflow side-channel entries by
`_annotate_metadata_record` (serialized with `json.dumps` in the source;
carried structurally here). -/
inductive AnnotValue where
  | terms (accepted : Bool)
  | agreement (accepted : Bool) (href : Option Str)
  | capture (capture_method : Str)
deriving DecidableEq, Repr

/-- Domain model `Project`. -/
structure Project where
  key : Str
  name : Str
  description : Str
deriving DecidableEq, Repr

/-- A CKAN project (infrastructure) dict: the shape built by
`_translate_to_ckan_project` (with the `id` entry the upsert fallback adds)
and the shape `_translate_from_ckan_project` consumes. -/
structure CKANProjectDict where
  id : Option Str
  name : Str
  title : Str
  description : Str
deriving DecidableEq, Repr

/-- Domain model `CollectionIn` (input side). -/
structure CollectionIn where
  key : Str
  name : Str
  description : Str
  doi_scope : Option Str
  project_keys : List Str
deriving DecidableEq, Repr

/-- Domain model `Collection`. -/
structure Collection where
  institution_key : Str
  key : Str
  name : Str
  description : Str
  doi_scope : Option Str
  project_keys : List Str
deriving DecidableEq, Repr

/-- A CKAN collection dict.  The backend's associated-project objects are
one-field dicts holding a key as `id`; they are modelled by the key itself,
so `infrastructures` is the list of project keys in backend order. -/
structure CKANCollectionDict where
  name : Str
  title : Str
  description : Str
  organization_id : Str
  doi_collection : Option Str
  infrastructures : List Str
deriving DecidableEq, Repr

/-- One backend call, as recorded in an operation's trace: the CKAN action
name together with the data_dict parameters the adapter passed. -/
inductive CallEvent where
  | record_show (id : Str)
  | record_create (d : CKANRecordInput)
  | record_update (id : Str) (d : CKANRecordInput)
  | record_delete (id : Str)
  | record_validate (id : Str)
  | record_transition (id state : Str)
  | annot_create (id key : Str) (value : AnnotValue)
  | annot_update (id key : Str) (value : AnnotValue)
  | infrastructure_create (d : CKANProjectDict)
  | infrastructure_update (d : CKANProjectDict)
  | collection_create (d : CKANCollectionDict)
deriving DecidableEq, Repr

/-- The CKAN backend, one pure function per action the adapter invokes:
`metadata_record_show/create/update/delete/validate`,
`metadata_record_workflow_state_transition`,
`metadata_record_workflow_annotation_create/update` (fields `annot_*`),
`infrastructure_create/update`, `metadata_collection_create`
(field `collection_create`).  `record_validate` returns the
`['data']['results']` list, each fragment modelled by its `errors` mapping;
`record_transition` returns the `['data']['errors']` mapping. -/
structure Backend where
  record_show : Str → RawResult CKANRecord
  record_create : CKANRecordInput → RawResult CKANRecord
  record_update : Str → CKANRecordInput → RawResult CKANRecord
  record_delete : Str → RawResult Unit
  record_validate : Str → RawResult (List Errors)
  record_transition : Str → Str → RawResult Errors
  annot_create : Str → Str → AnnotValue → RawResult Unit
  annot_update : Str → Str → AnnotValue → RawResult Unit
  infrastructure_create : CKANProjectDict → RawResult CKANProjectDict
  infrastructure_update : CKANProjectDict → RawResult CKANProjectDict
  collection_create : CKANCollectionDict → RawResult CKANCollectionDict

/-- One classified backend invocation: issues exactly the one recorded call
and returns `_call_ckan`'s classification of its outcome. -/
def invoke {α : Type} (ev : CallEvent) (r : RawResult α) :
    Except HTTPException α × List CallEvent :=
  (call_ckan r, [ev])

/-- `CKANAdapter._translate_from_ckan_record`. -/
def translate_from_ckan_record (ckan_record : CKANRecord) : MetadataRecord :=
  { institution_key := ckan_record.owner_org
    collection_key := ckan_record.metadata_collection_id
    schema_key := ckan_record.metadata_standard_id
    metadata := ckan_record.metadata_json
    id := ckan_record.id
    pid := if ckan_record.name ≠ ckan_record.id then some ckan_record.name else none
    doi := ckan_record.doi
    validated := ckan_record.validated
    errors := ckan_record.errors
    state := ckan_record.workflow_state_id }

/-- `CKANAdapter._translate_to_ckan_record` (`json.dumps` of the opaque
metadata payload is the identity on the opaque payload). -/
def translate_to_ckan_record (institution_key : Str) (metadata_record : MetadataRecordIn) :
    CKANRecordInput :=
  { owner_org := institution_key
    metadata_collection_id := metadata_record.collection_key
    metadata_standard_id := metadata_record.schema_key
    metadata_json := metadata_record.metadata
    doi := metadata_record.doi
    auto_assign_doi := metadata_record.auto_assign_doi }

/-- `CKANAdapter.get_metadata_record`. -/
def get_metadata_record (b : Backend) (institution_key record_id : Str) :
    Except HTTPException MetadataRecord × List CallEvent :=
  let (res, tr) := invoke (.record_show record_id) (b.record_show record_id)
  match res with
  | .error e => (.error e, tr)
  | .ok ckan_record =>
      if ckan_record.state ≠ "active".toList ∨ ckan_record.owner_org ≠ institution_key then
        (.error ⟨404, "CKAN resource not found".toList⟩, tr)
      else
        (.ok (translate_from_ckan_record ckan_record), tr)

/-- The body of the inner `annotate` closure in
`CKANAdapter._annotate_metadata_record`: attempt annotation create; on a 400
fall back to annotation update with the identical parameters; all failures
end up logged, never raised.  Returns the calls issued and the logged error
detail, if any. -/
def annotate_one (b : Backend) (record_id key : Str) (value : AnnotValue) :
    List CallEvent × Option Str :=
  let (res, tr) := invoke (.annot_create record_id key value) (b.annot_create record_id key value)
  match res with
  | .ok _ => (tr, none)
  | .error e =>
      if e.status_code = 400 then
        let (res2, tr2) :=
          invoke (.annot_update record_id key value) (b.annot_update record_id key value)
        match res2 with
        | .ok _ => (tr ++ tr2, none)
        | .error e2 => (tr ++ tr2, some e2.detail)
      else
        (tr, some e.detail)

/-- The three fixed record-entry keys applied by
`_annotate_metadata_record`, in source order. -/
def terms_and_conditions_key : Str := "terms_and_conditions".toList

/-- Second fixed record-entry key. -/
def data_agreement_key : Str := "data_agreement".toList

/-- Third fixed record-entry key. -/
def capture_info_key : Str := "capture_info".toList

/-- `CKANAdapter._annotate_metadata_record`: the three fixed annotation
entries, in source order.  Returns the calls issued and the `(key, detail)`
pairs logged. -/
def annotate_metadata_record (b : Backend) (record_id : Str)
    (metadata_record : MetadataRecordIn) : List CallEvent × List (Str × Str) :=
  let (t1, l1) := annotate_one b record_id terms_and_conditions_key
    (.terms metadata_record.terms_conditions_accepted)
  let (t2, l2) := annotate_one b record_id data_agreement_key
    (.agreement metadata_record.data_agreement_accepted metadata_record.data_agreement_url)
  let (t3, l3) := annotate_one b record_id capture_info_key
    (.capture metadata_record.capture_method)
  (t1 ++ t2 ++ t3,
   (l1.map fun m => (terms_and_conditions_key, m)).toList
     ++ (l2.map fun m => (data_agreement_key, m)).toList
     ++ (l3.map fun m => (capture_info_key, m)).toList)

/-- `CKANAdapter.validate_metadata_record`. -/
def validate_metadata_record (b : Backend) (institution_key record_id : Str) :
    Except HTTPException MetadataValidationResult × List CallEvent :=
  let (g, gtr) := get_metadata_record b institution_key record_id
  match g with
  | .error e => (.error e, gtr)
  | .ok _ =>
      let (vres, vtr) := invoke (.record_validate record_id) (b.record_validate record_id)
      match vres with
      | .error e => (.error e, gtr ++ vtr)
      | .ok validation_results =>
          let validation_errors := validation_results.foldl dict_update []
          (.ok ⟨validation_errors.isEmpty, validation_errors⟩, gtr ++ vtr)

/-- `CKANAdapter.create_or_update_metadata_record`. -/
def create_or_update_metadata_record (b : Backend) (institution_key : Str)
    (metadata_record : MetadataRecordIn) :
    Except HTTPException MetadataRecord × List CallEvent :=
  let input_dict := translate_to_ckan_record institution_key metadata_record
  let (res, tr) := invoke (.record_create input_dict) (b.record_create input_dict)
  match res with
  | .error e => (.error e, tr)
  | .ok ckan_record =>
      let record_id := ckan_record.id
      let (atr, _logs) := annotate_metadata_record b record_id metadata_record
      if ckan_record.validated then
        (.ok (translate_from_ckan_record ckan_record), tr ++ atr)
      else
        let (vres, vtr) := validate_metadata_record b institution_key record_id
        match vres with
        | .ok validation_result =>
            (.ok (translate_from_ckan_record
                { ckan_record with validated := true, errors := validation_result.errors }),
             tr ++ atr ++ vtr)
        | .error _e =>
            (.ok (translate_from_ckan_record ckan_record), tr ++ atr ++ vtr)

/-- `CKANAdapter.update_metadata_record`. -/
def update_metadata_record (b : Backend) (institution_key record_id : Str)
    (metadata_record : MetadataRecordIn) :
    Except HTTPException MetadataRecord × List CallEvent :=
  let (g, gtr) := get_metadata_record b institution_key record_id
  match g with
  | .error e => (.error e, gtr)
  | .ok _ =>
      let input_dict := translate_to_ckan_record institution_key metadata_record
      let (res, tr) := invoke (.record_update record_id input_dict)
        (b.record_update record_id input_dict)
      match res with
      | .error e => (.error e, gtr ++ tr)
      | .ok ckan_record =>
          let (atr, _logs) := annotate_metadata_record b record_id metadata_record
          if ckan_record.validated then
            (.ok (translate_from_ckan_record ckan_record), gtr ++ tr ++ atr)
          else
            let (vres, vtr) := validate_metadata_record b institution_key record_id
            match vres with
            | .ok validation_result =>
                (.ok (translate_from_ckan_record
                    { ckan_record with validated := true, errors := validation_result.errors }),
                 gtr ++ tr ++ atr ++ vtr)
            | .error _e =>
                (.ok (translate_from_ckan_record ckan_record), gtr ++ tr ++ atr ++ vtr)

/-- `CKANAdapter.delete_metadata_record`. -/
def delete_metadata_record (b : Backend) (institution_key record_id : Str) :
    Except HTTPException Bool × List CallEvent :=
  let (g, gtr) := get_metadata_record b institution_key record_id
  match g with
  | .error e => (.error e, gtr)
  | .ok _ =>
      let (res, tr) := invoke (.record_delete record_id) (b.record_delete record_id)
      match res with
      | .error e => (.error e, gtr ++ tr)
      | .ok _ => (.ok true, gtr ++ tr)

/-- `CKANAdapter.change_state_of_metadata_record`. -/
def change_state_of_metadata_record (b : Backend) (institution_key record_id state : Str) :
    Except HTTPException MetadataWorkflowResult × List CallEvent :=
  let (g, gtr) := get_metadata_record b institution_key record_id
  match g with
  | .error e => (.error e, gtr)
  | .ok _ =>
      let (res, tr) := invoke (.record_transition record_id state)
        (b.record_transition record_id state)
      match res with
      | .error e => (.error e, gtr ++ tr)
      | .ok workflow_errors =>
          (.ok ⟨workflow_errors.isEmpty, workflow_errors⟩, gtr ++ tr)

/-- `CKANAdapter._translate_from_ckan_project`. -/
def translate_from_ckan_project (ckan_project : CKANProjectDict) : Project :=
  { key := ckan_project.name
    name := ckan_project.title
    description := ckan_project.description }

/-- `CKANAdapter._translate_to_ckan_project`. -/
def translate_to_ckan_project (project : Project) : CKANProjectDict :=
  { id := none
    name := project.key
    title := project.name
    description := project.description }

/-- The key-namespace normalizer applied inline by `create_collection` and
`create_or_update_project`: append the suffix only when the key does not
already end with it. -/
def normalize_key (suffix key : Str) : Str :=
  if ends_with_l key suffix then key else key ++ suffix

/-- The duplicate-name message text `create_or_update_project` looks for in
the create failure's detail. -/
def group_exists_msg : Str := "Group name already exists in database".toList

/-- `CKANAdapter.create_or_update_project`.  `PROJECT_SUFFIX` is imported
from the external domain-model package, so it is a parameter here.  The
middle component of the result is the caller's `project` object as the call
leaves it (the source mutates `project.key` in place). -/
def create_or_update_project (b : Backend) (PROJECT_SUFFIX : Str) (project : Project) :
    Except HTTPException Project × Project × List CallEvent :=
  let project :=
    if ends_with_l project.key PROJECT_SUFFIX then project
    else { project with key := project.key ++ PROJECT_SUFFIX }
  let input_dict := translate_to_ckan_project project
  let (res, tr) := invoke (.infrastructure_create input_dict)
    (b.infrastructure_create input_dict)
  match res with
  | .ok ckan_project => (.ok (translate_from_ckan_project ckan_project), project, tr)
  | .error e =>
      if e.status_code = 400
          ∧ contains_sub e.detail group_exists_msg = true then
        let input_dict := { input_dict with id := some input_dict.name }
        let (res2, tr2) := invoke (.infrastructure_update input_dict)
          (b.infrastructure_update input_dict)
        match res2 with
        | .ok ckan_project =>
            (.ok (translate_from_ckan_project ckan_project), project, tr ++ tr2)
        | .error e2 => (.error e2, project, tr ++ tr2)
      else
        (.error e, project, tr)

/-- `CKANAdapter._translate_from_ckan_collection`. -/
def translate_from_ckan_collection (ckan_collection : CKANCollectionDict) : Collection :=
  { institution_key := ckan_collection.organization_id
    key := ckan_collection.name
    name := ckan_collection.title
    description := ckan_collection.description
    doi_scope := ckan_collection.doi_collection
    project_keys := ckan_collection.infrastructures }

/-- `CKANAdapter._translate_to_ckan_collection`. -/
def translate_to_ckan_collection (institution_key : Str) (collection : CollectionIn) :
    CKANCollectionDict :=
  { name := collection.key
    title := collection.name
    description := collection.description
    organization_id := institution_key
    doi_collection := collection.doi_scope
    infrastructures := collection.project_keys }

/-- `CKANAdapter.create_collection`.  `COLLECTION_SUFFIX` is imported from
the external domain-model package, so it is a parameter here.  The middle
component is the caller's `collection` object as the call leaves it. -/
def create_collection (b : Backend) (COLLECTION_SUFFIX institution_key : Str)
    (collection : CollectionIn) :
    Except HTTPException Collection × CollectionIn × List CallEvent :=
  let collection :=
    if ends_with_l collection.key COLLECTION_SUFFIX then collection
    else { collection with key := collection.key ++ COLLECTION_SUFFIX }
  let input_dict := translate_to_ckan_collection institution_key collection
  let (res, tr) := invoke (.collection_create input_dict) (b.collection_create input_dict)
  match res with
  | .error e => (.error e, collection, tr)
  | .ok ckan_collection =>
      (.ok (translate_from_ckan_collection ckan_collection), collection, tr)

/-- Concrete institution key used by the closed corollaries below. -/
def ikEx : Str := "some-institution".toList

/-- Concrete record id used by the closed corollaries below. -/
def ridEx : Str := "rec-0001".toList

/-- A concrete active CKAN record owned by `ikEx`, not yet validated. -/
def rEx : CKANRecord :=
  { id := "rec-0001".toList
    name := "rec-0001".toList
    owner_org := "some-institution".toList
    metadata_collection_id := "coll-1".toList
    metadata_standard_id := "std-1".toList
    metadata_json := "mj".toList
    doi := none
    validated := false
    errors := []
    state := "active".toList
    workflow_state_id := "submitted".toList }

/-- A concrete record input. -/
def mriEx : MetadataRecordIn :=
  { collection_key := "coll-1".toList
    schema_key := "std-1".toList
    metadata := "mj".toList
    doi := none
    auto_assign_doi := false
    terms_conditions_accepted := true
    data_agreement_accepted := true
    data_agreement_url := none
    capture_method := "manual".toList }

/-- A backend on which every action succeeds; validation reports two
fragments whose error mappings collide on the key `f`. -/
def bEx : Backend :=
  { record_show := fun _ => .ok rEx
    record_create := fun _ => .ok rEx
    record_update := fun _ _ => .ok rEx
    record_delete := fun _ => .ok ()
    record_validate := fun _ =>
      .ok [[("f".toList, "e1".toList)], [("f".toList, "e2".toList)]]
    record_transition := fun _ _ => .ok []
    annot_create := fun _ _ _ => .ok ()
    annot_update := fun _ _ _ => .ok ()
    infrastructure_create := fun d => .ok d
    infrastructure_update := fun d => .ok d
    collection_create := fun d => .ok d }

/-- `bEx` with a show action that reports not-found. -/
def bFailEx : Backend := { bEx with record_show := fun _ => .notFound "missing".toList }

/-- The record `rEx`, owned by a different institution. -/
def rOtherEx : CKANRecord := { rEx with owner_org := "other-institution".toList }

/-- `bEx` returning a record owned by a different institution. -/
def bOtherEx : Backend := { bEx with record_show := fun _ => .ok rOtherEx }

/-- `bEx` with a project create that reports the duplicate-name API error. -/
def bDupEx : Backend :=
  { bEx with infrastructure_create :=
      fun _ => .apiError "Group name already exists in database".toList }

/-- `bEx` with an entry-create action that reports a validation (400)
error, forcing the entry-update fallback. -/
def bAnnotEx : Backend :=
  { bEx with annot_create := fun _ _ _ => .validationError "dup".toList }

/-- A concrete project. -/
def pEx : Project :=
  { key := "proj-one".toList, name := "Project One".toList, description := "d".toList }

/-- A concrete suffix standing in for the externally defined markers. -/
def sfxEx : Str := "-infrastructure".toList

/-- The translated dict `create_or_update_project` sends for `pEx`. -/
def pdEx : CKANProjectDict := translate_to_ckan_project { pEx with key := normalize_key sfxEx pEx.key }

/-- `pdEx` with the backend-visible `id` set, as the fallback update sends it. -/
def pd2Ex : CKANProjectDict := { pdEx with id := some pdEx.name }

/-- A concrete collection input. -/
def cEx : CollectionIn :=
  { key := "coll-one".toList, name := "Collection One".toList,
    description := "d".toList, doi_scope := none, project_keys := [] }

/-- The 404 exception `bFailEx`'s show produces through `call_ckan`. -/
def e404Ex : HTTPException := ⟨404, "CKAN resource not found: missing".toList⟩

instance {ε α : Type} [DecidableEq ε] [DecidableEq α] : DecidableEq (Except ε α)
  | .ok x, .ok y =>
      if h : x = y then isTrue (by rw [h]) else isFalse (fun hc => h (Except.ok.inj hc))
  | .ok _, .error _ => isFalse (fun hc => Except.noConfusion hc)
  | .error _, .ok _ => isFalse (fun hc => Except.noConfusion hc)
  | .error d, .error e =>
      if h : d = e then isTrue (by rw [h]) else isFalse (fun hc => h (Except.error.inj hc))

theorem starts_with_l_nil (s : Str) : starts_with_l s [] = true := by
  cases s <;> rfl

theorem starts_with_l_self_append (l m : Str) : starts_with_l (l ++ m) l = true := by
  induction l with
  | nil => exact starts_with_l_nil m
  | cons a l ih => simp [starts_with_l, ih]

theorem ends_with_l_append (k s : Str) : ends_with_l (k ++ s) s = true := by
  unfold ends_with_l
  rw [List.reverse_append]
  exact starts_with_l_self_append _ _

theorem normalize_key_idem (suffix key : Str) :
    normalize_key suffix (normalize_key suffix key) = normalize_key suffix key := by
  unfold normalize_key
  by_cases h : ends_with_l key suffix = true
  · simp [h]
  · simp [h, ends_with_l_append]

theorem get_metadata_record_trace (b : Backend) (institution_key record_id : Str) :
    (get_metadata_record b institution_key record_id).2 = [CallEvent.record_show record_id] := by
  unfold get_metadata_record invoke
  rcases call_ckan (b.record_show record_id) with e | r
  · rfl
  · dsimp only
    split <;> rfl

theorem norm_collection_eq (suffix : Str) (c : CollectionIn) :
    (if ends_with_l c.key suffix then c else { c with key := c.key ++ suffix })
      = { c with key := normalize_key suffix c.key } := by
  unfold normalize_key
  by_cases h : ends_with_l c.key suffix = true <;> simp [h]

theorem norm_project_eq (suffix : Str) (p : Project) :
    (if ends_with_l p.key suffix then p else { p with key := p.key ++ suffix })
      = { p with key := normalize_key suffix p.key } := by
  unfold normalize_key
  by_cases h : ends_with_l p.key suffix = true <;> simp [h]

/-- C6: `_call_ckan` classifies backend-call failures exactly as: transport
failure to 503 ServiceUnavailable, backend validation failure to 400
BadRequest, authorization failure to 403 Forbidden, not-found to 404
NotFound, any other backend API error to 400 BadRequest; a success passes
the response through; and one invocation issues exactly one backend call
(no retries at this layer). -/
theorem C6_call_ckan_classification {α : Type} (msg : Str) (ev : CallEvent) (r : RawResult α) :
    call_ckan (RawResult.requestExc msg : RawResult α)
        = Except.error ⟨503, "Error sending request to CKAN: ".toList ++ msg⟩
  ∧ call_ckan (RawResult.validationError msg : RawResult α)
        = Except.error ⟨400, "CKAN validation error: ".toList ++ msg⟩
  ∧ call_ckan (RawResult.notAuthorized msg : RawResult α)
        = Except.error ⟨403, "Not authorized to access CKAN resource: ".toList ++ msg⟩
  ∧ call_ckan (RawResult.notFound msg : RawResult α)
        = Except.error ⟨404, "CKAN resource not found: ".toList ++ msg⟩
  ∧ call_ckan (RawResult.apiError msg : RawResult α)
        = Except.error ⟨400, "CKAN error: ".toList ++ msg⟩
  ∧ (invoke ev r).2 = [ev]
  ∧ (∀ v : α, call_ckan (RawResult.ok v) = Except.ok v) :=
  ⟨rfl, rfl, rfl, rfl, rfl, rfl, fun _ => rfl⟩

/-- C8: a translated record's `pid` is present (and equal to the backend
`name`) iff the backend `name` differs from the backend `id`; when they
coincide, `pid` is absent. -/
theorem C8_pid_derivation (r : CKANRecord) :
    ((translate_from_ckan_record r).pid = some r.name ↔ r.name ≠ r.id)
  ∧ (r.name = r.id → (translate_from_ckan_record r).pid = none)
  ∧ (∀ p, (translate_from_ckan_record r).pid = some p → p = r.name) := by
  unfold translate_from_ckan_record
  by_cases h : r.name = r.id <;> simp [h]

/-- C9: key normalization is idempotent (appending the suffix only when the
key does not already end with it), and both `create_collection` and
`create_or_update_project` put the normalized key into the translated dict
of their create call. -/
theorem C9_normalization_idempotent (suffix key institution_key : Str) (b : Backend)
    (c : CollectionIn) (p : Project) :
    normalize_key suffix (normalize_key suffix key) = normalize_key suffix key
  ∧ (create_collection b suffix institution_key c).2.2
      = [CallEvent.collection_create
          (translate_to_ckan_collection institution_key
            { c with key := normalize_key suffix c.key })]
  ∧ ((create_or_update_project b suffix p).2.2.head?
      = some (CallEvent.infrastructure_create
          (translate_to_ckan_project { p with key := normalize_key suffix p.key }))) := by
  refine ⟨normalize_key_idem suffix key, ?_, ?_⟩
  · unfold create_collection invoke
    rw [norm_collection_eq]
    cases hc : call_ckan (b.collection_create (translate_to_ckan_collection institution_key
      { c with key := normalize_key suffix c.key })) <;> simp [hc]
  · unfold create_or_update_project invoke
    rw [norm_project_eq]
    cases hc : call_ckan (b.infrastructure_create (translate_to_ckan_project
      { p with key := normalize_key suffix p.key })) with
    | error e =>
        simp only [hc]
        split
        · cases hu : call_ckan (b.infrastructure_update _) <;> simp [hu]
        · simp
    | ok cp => simp [hc]

/-- C10: `create_collection` and `create_or_update_project` mutate the
caller's input object in place: whatever the outcome, after the call the
caller's object holds the suffix-normalized key. -/
theorem C10_input_key_mutation (suffix institution_key : Str) (b : Backend)
    (c : CollectionIn) (p : Project) :
    (create_collection b suffix institution_key c).2.1
        = { c with key := normalize_key suffix c.key }
  ∧ (create_or_update_project b suffix p).2.1
        = { p with key := normalize_key suffix p.key } := by
  constructor
  · unfold create_collection invoke
    rw [norm_collection_eq]
    cases hc : call_ckan (b.collection_create (translate_to_ckan_collection institution_key
      { c with key := normalize_key suffix c.key })) <;> simp [hc]
  · unfold create_or_update_project invoke
    rw [norm_project_eq]
    cases hc : call_ckan (b.infrastructure_create (translate_to_ckan_project
      { p with key := normalize_key suffix p.key })) with
    | error e =>
        simp only [hc]
        split
        · cases hu : call_ckan (b.infrastructure_update _) <;> simp [hu]
        · simp
    | ok cp => simp [hc]

/-- C5: `get_metadata_record` returns only a record that is active and owned
by the given institution; an inactive record or an institution mismatch
yields exactly the one fixed 404 NotFound error — never a 403, and with a
status and detail that do not depend on which of the two conditions failed,
so an institution mismatch is indistinguishable from true absence. -/
theorem C5_get_information_hiding (b : Backend) (institution_key record_id : Str)
    (r : CKANRecord) (hr : b.record_show record_id = RawResult.ok r) :
    (¬(r.state = "active".toList ∧ r.owner_org = institution_key) →
        get_metadata_record b institution_key record_id
          = (Except.error ⟨404, "CKAN resource not found".toList⟩,
             [CallEvent.record_show record_id]))
  ∧ (r.state = "active".toList → r.owner_org = institution_key →
        get_metadata_record b institution_key record_id
          = (Except.ok (translate_from_ckan_record r), [CallEvent.record_show record_id])) := by
  unfold get_metadata_record invoke
  rw [hr]
  constructor
  · intro h
    simp only [call_ckan]
    simp
    tauto
  · intro h1 h2
    simp [call_ckan, h1, h2]

/-- C4: update, delete, validate and workflow-state-transition each perform
the scoped existence check first; when it fails, the whole operation fails
with the check's error, and the only backend call issued is the show — no
mutating backend action is invoked. -/
theorem C4_scoped_check_first (b : Backend) (institution_key record_id state : Str)
    (metadata_record : MetadataRecordIn) (e : HTTPException) (gtr : List CallEvent)
    (hg : get_metadata_record b institution_key record_id = (Except.error e, gtr)) :
    update_metadata_record b institution_key record_id metadata_record = (Except.error e, gtr)
  ∧ delete_metadata_record b institution_key record_id = (Except.error e, gtr)
  ∧ validate_metadata_record b institution_key record_id = (Except.error e, gtr)
  ∧ change_state_of_metadata_record b institution_key record_id state = (Except.error e, gtr)
  ∧ gtr = [CallEvent.record_show record_id] := by
  have htr : gtr = [CallEvent.record_show record_id] := by
    have h2 := get_metadata_record_trace b institution_key record_id
    rw [hg] at h2
    exact h2
  refine ⟨?_, ?_, ?_, ?_, htr⟩
  · simp [update_metadata_record, hg]
  · simp [delete_metadata_record, hg]
  · simp [validate_metadata_record, hg]
  · simp [change_state_of_metadata_record, hg]

theorem dict_lookup_set (d : Errors) (k v k' : Str) :
    dict_lookup (set_key d k v) k' = if k = k' then some v else dict_lookup d k' := by
  induction d with
  | nil => simp [set_key, dict_lookup]
  | cons kv d ih =>
      by_cases h2 : k = k'
      · subst h2
        by_cases h1 : kv.1 = k <;> simp [set_key, dict_lookup, h1, ih]
      · have h2' : ¬(k' = k) := fun hh => h2 hh.symm
        by_cases h1 : kv.1 = k
        · simp [set_key, dict_lookup, h1, h2, h2']
        · by_cases h3 : kv.1 = k' <;> simp [set_key, dict_lookup, h1, h2, h2', h3, ih]

theorem dict_lookup_foldl_set (l : Errors) (d : Errors) (k : Str) :
    dict_lookup (l.foldl (fun acc kv => set_key acc kv.1 kv.2) d) k
      = opt_or (last_value l k) (dict_lookup d k) := by
  induction l generalizing d with
  | nil => simp [last_value, opt_or]
  | cons kv l ih =>
      rw [List.foldl_cons, ih, dict_lookup_set]
      cases hl : last_value l k with
      | some v => simp [last_value, opt_or, hl]
      | none => by_cases h : kv.1 = k <;> simp [last_value, opt_or, hl, h]

theorem opt_or_none (a : Option Str) : opt_or a none = a := by
  cases a <;> rfl

theorem last_value_append (l1 l2 : Errors) (k : Str) :
    last_value (l1 ++ l2) k = opt_or (last_value l2 k) (last_value l1 k) := by
  induction l1 with
  | nil => cases hl : last_value l2 k <;> simp [last_value, opt_or, hl]
  | cons kv l1 ih =>
      simp only [List.cons_append, last_value, List.append_eq]
      rw [ih]
      cases hl2 : last_value l2 k <;> cases hl1 : last_value l1 k <;>
        simp [opt_or, hl2, hl1]

theorem dict_lookup_merge (frs : List Errors) (d : Errors) (k : Str) :
    dict_lookup (frs.foldl dict_update d) k
      = opt_or (last_value frs.flatten k) (dict_lookup d k) := by
  induction frs generalizing d with
  | nil => simp [last_value, opt_or, List.flatten]
  | cons fr frs ih =>
      rw [List.foldl_cons, ih]
      rw [show dict_update d fr = fr.foldl (fun acc kv => set_key acc kv.1 kv.2) d from rfl,
          dict_lookup_foldl_set]
      rw [show (fr :: frs).flatten = fr ++ frs.flatten from rfl, last_value_append]
      cases h1 : last_value frs.flatten k <;> cases h2 : last_value fr k <;>
        simp [opt_or, h1, h2]

/-- C7: a successful standalone validate merges the backend-reported
validation-result fragments' error mappings in fragment order by repeated
dict update; for every key the merged value is the LAST value written for
that key across the fragments' entries in order (last-write-wins), and the
success flag is true iff the merged mapping is empty. -/
theorem C7_validation_merge (b : Backend) (institution_key record_id : Str)
    (frs : List Errors) (g : MetadataRecord) (gtr : List CallEvent)
    (hg : get_metadata_record b institution_key record_id = (Except.ok g, gtr))
    (hv : b.record_validate record_id = RawResult.ok frs) :
    validate_metadata_record b institution_key record_id
        = (Except.ok ⟨(frs.foldl dict_update []).isEmpty, frs.foldl dict_update []⟩,
           gtr ++ [CallEvent.record_validate record_id])
  ∧ (∀ k, dict_lookup (frs.foldl dict_update []) k = last_value frs.flatten k)
  ∧ ((frs.foldl dict_update []).isEmpty = true ↔ frs.foldl dict_update [] = []) := by
  refine ⟨?_, ?_, ?_⟩
  · simp [validate_metadata_record, invoke, hg, hv, call_ckan]
  · intro k
    have h := dict_lookup_merge frs [] k
    simpa [dict_lookup, opt_or_none] using h
  · cases frs.foldl dict_update [] <;> simp

theorem cu_eval (b : Backend) (ik : Str) (mri : MetadataRecordIn) (r : CKANRecord)
    (hc : b.record_create (translate_to_ckan_record ik mri) = RawResult.ok r)
    (hval : r.validated = false) :
    create_or_update_metadata_record b ik mri
      = ((match (validate_metadata_record b ik r.id).1 with
          | Except.ok vres =>
              Except.ok (translate_from_ckan_record
                { r with validated := true, errors := vres.errors })
          | Except.error _ => Except.ok (translate_from_ckan_record r)),
         [CallEvent.record_create (translate_to_ckan_record ik mri)]
           ++ (annotate_metadata_record b r.id mri).1
           ++ (validate_metadata_record b ik r.id).2) := by
  rcases hA : annotate_metadata_record b r.id mri with ⟨atr, logs⟩
  rcases hv : validate_metadata_record b ik r.id with ⟨vres, vtr⟩
  cases vres <;>
    simp [create_or_update_metadata_record, invoke, call_ckan, hc, hval, hA, hv]

theorem cu_eval_validated (b : Backend) (ik : Str) (mri : MetadataRecordIn) (r : CKANRecord)
    (hc : b.record_create (translate_to_ckan_record ik mri) = RawResult.ok r)
    (hval : r.validated = true) :
    create_or_update_metadata_record b ik mri
      = (Except.ok (translate_from_ckan_record r),
         [CallEvent.record_create (translate_to_ckan_record ik mri)]
           ++ (annotate_metadata_record b r.id mri).1) := by
  rcases hA : annotate_metadata_record b r.id mri with ⟨atr, logs⟩
  simp [create_or_update_metadata_record, invoke, call_ckan, hc, hval, hA]

theorem upd_eval (b : Backend) (ik rid : Str) (mri : MetadataRecordIn) (g : MetadataRecord)
    (gtr : List CallEvent) (r : CKANRecord)
    (hg : get_metadata_record b ik rid = (Except.ok g, gtr))
    (hu : b.record_update rid (translate_to_ckan_record ik mri) = RawResult.ok r)
    (hval : r.validated = false) :
    update_metadata_record b ik rid mri
      = ((match (validate_metadata_record b ik rid).1 with
          | Except.ok vres =>
              Except.ok (translate_from_ckan_record
                { r with validated := true, errors := vres.errors })
          | Except.error _ => Except.ok (translate_from_ckan_record r)),
         gtr ++ [CallEvent.record_update rid (translate_to_ckan_record ik mri)]
           ++ (annotate_metadata_record b rid mri).1
           ++ (validate_metadata_record b ik rid).2) := by
  rcases hA : annotate_metadata_record b rid mri with ⟨atr, logs⟩
  rcases hv : validate_metadata_record b ik rid with ⟨vres, vtr⟩
  cases vres <;>
    simp [update_metadata_record, invoke, call_ckan, hg, hu, hval, hA, hv]

theorem upd_eval_validated (b : Backend) (ik rid : Str) (mri : MetadataRecordIn)
    (g : MetadataRecord) (gtr : List CallEvent) (r : CKANRecord)
    (hg : get_metadata_record b ik rid = (Except.ok g, gtr))
    (hu : b.record_update rid (translate_to_ckan_record ik mri) = RawResult.ok r)
    (hval : r.validated = true) :
    update_metadata_record b ik rid mri
      = (Except.ok (translate_from_ckan_record r),
         gtr ++ [CallEvent.record_update rid (translate_to_ckan_record ik mri)]
           ++ (annotate_metadata_record b rid mri).1) := by
  rcases hA : annotate_metadata_record b rid mri with ⟨atr, logs⟩
  simp [update_metadata_record, invoke, call_ckan, hg, hu, hval, hA]

/-- C1: on create-or-update and on update of a metadata record, when the
backend-returned record is not already marked validated, the orchestrator
invokes the validate operation (its calls appear at the end of the trace);
if that invocation fails with any classified error, the failure is swallowed
and the operation still returns success with the record keeping
`validated = false` and its original errors; if it returns a result, the
returned record has `validated = true` and its errors set to the validation
result's error mapping. -/
theorem C1_opportunistic_validation (b : Backend) (institution_key record_id : Str)
    (metadata_record : MetadataRecordIn) (r : CKANRecord) (g : MetadataRecord)
    (gtr : List CallEvent) :
    (b.record_create (translate_to_ckan_record institution_key metadata_record)
        = RawResult.ok r →
     r.validated = false →
       ((create_or_update_metadata_record b institution_key metadata_record).2
          = [CallEvent.record_create (translate_to_ckan_record institution_key metadata_record)]
            ++ (annotate_metadata_record b r.id metadata_record).1
            ++ (validate_metadata_record b institution_key r.id).2)
     ∧ (∀ e vtr,
          validate_metadata_record b institution_key r.id = (Except.error e, vtr) →
          (create_or_update_metadata_record b institution_key metadata_record).1
              = Except.ok (translate_from_ckan_record r)
          ∧ (translate_from_ckan_record r).validated = false
          ∧ (translate_from_ckan_record r).errors = r.errors)
     ∧ (∀ vres vtr,
          validate_metadata_record b institution_key r.id = (Except.ok vres, vtr) →
          (create_or_update_metadata_record b institution_key metadata_record).1
              = Except.ok (translate_from_ckan_record
                  { r with validated := true, errors := vres.errors })
          ∧ (translate_from_ckan_record
              { r with validated := true, errors := vres.errors }).validated = true
          ∧ (translate_from_ckan_record
              { r with validated := true, errors := vres.errors }).errors = vres.errors))
  ∧ (get_metadata_record b institution_key record_id = (Except.ok g, gtr) →
     b.record_update record_id (translate_to_ckan_record institution_key metadata_record)
        = RawResult.ok r →
     r.validated = false →
       ((update_metadata_record b institution_key record_id metadata_record).2
          = gtr ++ [CallEvent.record_update record_id
                      (translate_to_ckan_record institution_key metadata_record)]
            ++ (annotate_metadata_record b record_id metadata_record).1
            ++ (validate_metadata_record b institution_key record_id).2)
     ∧ (∀ e vtr,
          validate_metadata_record b institution_key record_id = (Except.error e, vtr) →
          (update_metadata_record b institution_key record_id metadata_record).1
              = Except.ok (translate_from_ckan_record r))
     ∧ (∀ vres vtr,
          validate_metadata_record b institution_key record_id = (Except.ok vres, vtr) →
          (update_metadata_record b institution_key record_id metadata_record).1
              = Except.ok (translate_from_ckan_record
                  { r with validated := true, errors := vres.errors }))) := by
  constructor
  · intro hc hval
    refine ⟨?_, ?_, ?_⟩
    · rw [cu_eval b institution_key metadata_record r hc hval]
    · intro e vtr hv
      refine ⟨?_, ?_, ?_⟩
      · rw [cu_eval b institution_key metadata_record r hc hval]
        simp [hv]
      · simp [translate_from_ckan_record, hval]
      · simp [translate_from_ckan_record]
    · intro vres vtr hv
      refine ⟨?_, ?_, ?_⟩
      · rw [cu_eval b institution_key metadata_record r hc hval]
        simp [hv]
      · simp [translate_from_ckan_record]
      · simp [translate_from_ckan_record]
  · intro hg hu hval
    refine ⟨?_, ?_, ?_⟩
    · rw [upd_eval b institution_key record_id metadata_record g gtr r hg hu hval]
    · intro e vtr hv
      rw [upd_eval b institution_key record_id metadata_record g gtr r hg hu hval]
      simp [hv]
    · intro vres vtr hv
      rw [upd_eval b institution_key record_id metadata_record g gtr r hg hu hval]
      simp [hv]

/-- C2: project upsert — after key normalization a create is attempted; the
update fallback fires if and only if the create failed with a
BadRequest-classified (400) error whose detail contains the duplicate-name
text, and then exactly one update call is made carrying the same translated
title/description and the normalized key as the backend-visible `id`; any
other create failure propagates unchanged with no update attempted. -/
theorem C2_project_upsert (b : Backend) (PROJECT_SUFFIX : Str) (project : Project)
    (d d2 : CKANProjectDict)
    (hd : d = translate_to_ckan_project
        { project with key := normalize_key PROJECT_SUFFIX project.key })
    (hd2 : d2 = { d with id := some d.name }) :
    (∀ cp, b.infrastructure_create d = RawResult.ok cp →
        create_or_update_project b PROJECT_SUFFIX project
          = (Except.ok (translate_from_ckan_project cp),
             { project with key := normalize_key PROJECT_SUFFIX project.key },
             [CallEvent.infrastructure_create d]))
  ∧ (∀ e, call_ckan (b.infrastructure_create d) = Except.error e →
        e.status_code = 400 →
        contains_sub e.detail group_exists_msg = true →
        (∀ cp2, call_ckan (b.infrastructure_update d2) = Except.ok cp2 →
            create_or_update_project b PROJECT_SUFFIX project
              = (Except.ok (translate_from_ckan_project cp2),
                 { project with key := normalize_key PROJECT_SUFFIX project.key },
                 [CallEvent.infrastructure_create d, CallEvent.infrastructure_update d2]))
        ∧ (∀ e2, call_ckan (b.infrastructure_update d2) = Except.error e2 →
            create_or_update_project b PROJECT_SUFFIX project
              = (Except.error e2,
                 { project with key := normalize_key PROJECT_SUFFIX project.key },
                 [CallEvent.infrastructure_create d, CallEvent.infrastructure_update d2])))
  ∧ (∀ e, call_ckan (b.infrastructure_create d) = Except.error e →
        ¬(e.status_code = 400
            ∧ contains_sub e.detail group_exists_msg = true) →
        create_or_update_project b PROJECT_SUFFIX project
          = (Except.error e,
             { project with key := normalize_key PROJECT_SUFFIX project.key },
             [CallEvent.infrastructure_create d])) := by
  subst hd2
  subst hd
  refine ⟨?_, ?_, ?_⟩
  · intro cp hcp
    unfold create_or_update_project invoke
    rw [norm_project_eq]
    simp [hcp, call_ckan]
  · intro e he h400 hmsg
    constructor
    · intro cp2 hcp2
      unfold create_or_update_project invoke
      rw [norm_project_eq]
      simp [he, h400, hmsg, hcp2]
    · intro e2 he2
      unfold create_or_update_project invoke
      rw [norm_project_eq]
      simp [he, h400, hmsg, he2]
  · intro e he hnot
    unfold create_or_update_project invoke
    rw [norm_project_eq]
    simp [he, hnot]

/-- C3: on every record create/update the three fixed workflow entries
(`terms_and_conditions`, `data_agreement`, `capture_info`, in that order)
are applied; per entry a create is attempted first, a BadRequest-classified
(400) create failure triggers the update call with the identical record id,
key and value, a non-400 create error (and any error of the fallback
update) is only logged; and once the primary create/update call has
succeeded the enclosing record operation succeeds regardless of the
annotation outcomes. -/
theorem C3_annotation_upsert (b : Backend) (record_id key institution_key : Str)
    (value : AnnotValue) (metadata_record : MetadataRecordIn) (r : CKANRecord)
    (g : MetadataRecord) (gtr : List CallEvent) :
    ((annotate_one b record_id key value).1.head?
        = some (CallEvent.annot_create record_id key value))
  ∧ (b.annot_create record_id key value = RawResult.ok () →
        annotate_one b record_id key value
          = ([CallEvent.annot_create record_id key value], none))
  ∧ (∀ e, call_ckan (b.annot_create record_id key value) = Except.error e →
        e.status_code = 400 →
        annotate_one b record_id key value
          = ([CallEvent.annot_create record_id key value,
              CallEvent.annot_update record_id key value],
             match call_ckan (b.annot_update record_id key value) with
             | Except.ok _ => none
             | Except.error e2 => some e2.detail))
  ∧ (∀ e, call_ckan (b.annot_create record_id key value) = Except.error e →
        e.status_code ≠ 400 →
        annotate_one b record_id key value
          = ([CallEvent.annot_create record_id key value], some e.detail))
  ∧ ((annotate_metadata_record b record_id metadata_record).1
        = (annotate_one b record_id terms_and_conditions_key
             (.terms metadata_record.terms_conditions_accepted)).1
          ++ (annotate_one b record_id data_agreement_key
               (.agreement metadata_record.data_agreement_accepted
                 metadata_record.data_agreement_url)).1
          ++ (annotate_one b record_id capture_info_key
               (.capture metadata_record.capture_method)).1)
  ∧ (b.record_create (translate_to_ckan_record institution_key metadata_record)
        = RawResult.ok r →
     ∃ rec, (create_or_update_metadata_record b institution_key metadata_record).1
        = Except.ok rec)
  ∧ (get_metadata_record b institution_key record_id = (Except.ok g, gtr) →
     b.record_update record_id (translate_to_ckan_record institution_key metadata_record)
        = RawResult.ok r →
     ∃ rec, (update_metadata_record b institution_key record_id metadata_record).1
        = Except.ok rec) := by
  refine ⟨?_, ?_, ?_, ?_, ?_, ?_, ?_⟩
  · unfold annotate_one invoke
    cases hc : call_ckan (b.annot_create record_id key value) with
    | ok u => simp [hc]
    | error e =>
        simp only [hc]
        split
        · cases hu : call_ckan (b.annot_update record_id key value) <;> simp [hu]
        · simp
  · intro hc
    simp [annotate_one, invoke, hc, call_ckan]
  · intro e hc h400
    cases hu : call_ckan (b.annot_update record_id key value) <;>
      simp [annotate_one, invoke, hc, h400, hu]
  · intro e hc h400
    simp [annotate_one, invoke, hc, h400]
  · rcases h1 : annotate_one b record_id terms_and_conditions_key
      (.terms metadata_record.terms_conditions_accepted) with ⟨t1, l1⟩
    rcases h2 : annotate_one b record_id data_agreement_key
      (.agreement metadata_record.data_agreement_accepted
        metadata_record.data_agreement_url) with ⟨t2, l2⟩
    rcases h3 : annotate_one b record_id capture_info_key
      (.capture metadata_record.capture_method) with ⟨t3, l3⟩
    simp [annotate_metadata_record, h1, h2, h3]
  · intro hc
    cases hval : r.validated
    · rw [cu_eval b institution_key metadata_record r hc hval]
      cases hv : (validate_metadata_record b institution_key r.id).1 <;> simp [hv]
    · rw [cu_eval_validated b institution_key metadata_record r hc hval]
      exact ⟨_, rfl⟩
  · intro hg hu
    cases hval : r.validated
    · rw [upd_eval b institution_key record_id metadata_record g gtr r hg hu hval]
      cases hv : (validate_metadata_record b institution_key record_id).1 <;> simp [hv]
    · rw [upd_eval_validated b institution_key record_id metadata_record g gtr r hg hu hval]
      exact ⟨_, rfl⟩

/-- Closed corollary of C1 on a concrete backend. -/
theorem C1_opportunistic_validation_witness :
    (create_or_update_metadata_record bEx ikEx mriEx).1
      = Except.ok (translate_from_ckan_record
          { rEx with validated := true, errors := [("f".toList, "e2".toList)] }) :=
  (((C1_opportunistic_validation bEx ikEx ridEx mriEx rEx
        (translate_from_ckan_record rEx) [CallEvent.record_show ridEx]).1
      rfl rfl).2.2
    ⟨false, [("f".toList, "e2".toList)]⟩
    [CallEvent.record_show rEx.id, CallEvent.record_validate rEx.id]
    (by decide)).1

/-- Closed corollary of C2 on a concrete backend. -/
theorem C2_project_upsert_witness :
    create_or_update_project bDupEx sfxEx pEx
      = (Except.ok (translate_from_ckan_project pd2Ex),
         { pEx with key := normalize_key sfxEx pEx.key },
         [CallEvent.infrastructure_create pdEx, CallEvent.infrastructure_update pd2Ex]) :=
  ((C2_project_upsert bDupEx sfxEx pEx pdEx pd2Ex rfl rfl).2.1
      ⟨400, "CKAN error: ".toList ++ "Group name already exists in database".toList⟩
      (by decide) (by decide) (by decide)).1 pd2Ex (by decide)

/-- Closed corollary of C3 on a concrete backend. -/
theorem C3_annotation_upsert_witness :
    annotate_one bAnnotEx ridEx terms_and_conditions_key (AnnotValue.terms true)
      = ([CallEvent.annot_create ridEx terms_and_conditions_key (AnnotValue.terms true),
          CallEvent.annot_update ridEx terms_and_conditions_key (AnnotValue.terms true)],
         none) :=
  (C3_annotation_upsert bAnnotEx ridEx terms_and_conditions_key ikEx
      (AnnotValue.terms true) mriEx rEx (translate_from_ckan_record rEx)
      [CallEvent.record_show ridEx]).2.2.1
    ⟨400, "CKAN validation error: ".toList ++ "dup".toList⟩ (by decide) (by decide)

/-- Closed corollary of C4 on a concrete backend. -/
theorem C4_scoped_check_first_witness :
    delete_metadata_record bFailEx ikEx ridEx
      = (Except.error e404Ex, [CallEvent.record_show ridEx]) :=
  (C4_scoped_check_first bFailEx ikEx ridEx "published".toList mriEx e404Ex
      [CallEvent.record_show ridEx] (by decide)).2.1

/-- Closed corollary of C5 on a concrete backend. -/
theorem C5_get_information_hiding_witness :
    get_metadata_record bOtherEx ikEx ridEx
      = (Except.error ⟨404, "CKAN resource not found".toList⟩,
         [CallEvent.record_show ridEx]) :=
  (C5_get_information_hiding bOtherEx ikEx ridEx rOtherEx rfl).1 (by decide)

/-- Closed corollary of C6 at a concrete message. -/
theorem C6_call_ckan_classification_witness :
    call_ckan (RawResult.requestExc "nope".toList : RawResult CKANRecord)
      = Except.error ⟨503, "Error sending request to CKAN: ".toList ++ "nope".toList⟩ :=
  (C6_call_ckan_classification (α := CKANRecord) "nope".toList
      (CallEvent.record_show ridEx) (RawResult.ok rEx)).1

/-- Closed corollary of C7 on a concrete backend: the two fragments collide
on `f` and the later fragment's value wins. -/
theorem C7_validation_merge_witness :
    validate_metadata_record bEx ikEx ridEx
      = (Except.ok ⟨false, [("f".toList, "e2".toList)]⟩,
         [CallEvent.record_show ridEx] ++ [CallEvent.record_validate ridEx]) := by
  have h := (C7_validation_merge bEx ikEx ridEx
      [[("f".toList, "e1".toList)], [("f".toList, "e2".toList)]]
      (translate_from_ckan_record rEx) [CallEvent.record_show ridEx]
      (by decide) rfl).1
  exact h.trans (by decide)

/-- Closed corollary of C8 at a concrete record with `name = id`. -/
theorem C8_pid_derivation_witness :
    (translate_from_ckan_record rEx).pid = none :=
  (C8_pid_derivation rEx).2.1 rfl

/-- Closed corollary of C9 at a concrete suffix and key. -/
theorem C9_normalization_idempotent_witness :
    normalize_key sfxEx (normalize_key sfxEx "proj-one".toList)
      = normalize_key sfxEx "proj-one".toList :=
  (C9_normalization_idempotent sfxEx "proj-one".toList ikEx bEx cEx pEx).1

/-- Closed corollary of C10 at a concrete project. -/
theorem C10_input_key_mutation_witness :
    (create_or_update_project bEx sfxEx pEx).2.1
      = { pEx with key := normalize_key sfxEx pEx.key } :=
  (C10_input_key_mutation sfxEx ikEx bEx cEx pEx).2
